import Mathlib

/-!
# Verification model of `zfs-killsnaps.py` (ZFS Snapshot Cleanup Tool)

A shallow embedding of the single-file Python program
`src/zfs-killsnaps/zfs-killsnaps.py`. External effects (the `zfs`
command-line tool, the filesystem, the clock) are modelled as explicit
oracles packaged in an environment record; Python exceptions are modelled
with `Except`; Python dictionaries are modelled as association lists with
first-match lookup and in-place update semantics.
-/

namespace ZfsKillsnaps

/-- A Python exception / abnormal-exit condition relevant to this program:
`sysExit c` models `sys.exit(c)` (raising `SystemExit`), `valueError` models
the `ValueError` raised by `datetime.strptime` on a malformed timestamp,
`fileNotFound` models the `FileNotFoundError` raised by `os.remove` on a
missing path, and `yamlError` models a `yaml.safe_load` parse failure. -/
inductive PyErr where
  | sysExit (code : Int)
  | valueError
  | fileNotFound
  | yamlError
deriving DecidableEq, Repr

/-- Severity of one `logging` call in the program (`logging.info`,
`logging.warning`, `logging.error`). -/
inductive LogLevel where
  | info
  | warning
  | error
deriving DecidableEq, Repr

/-- One line appended to the log file: a level and a formatted message. -/
structure LogEntry where
  level : LogLevel
  msg : String
deriving DecidableEq, Repr

/-! ## Python dictionaries as association lists

The program's configuration is a Python `dict`. We model a dict as an
association list with first-match lookup; `dset` models `d[k] = v`
(replace in place when the key is present, append otherwise) and
`dupdate` models `base.copy()` followed by `base.update(ov)`, which
assigns each of `ov`'s items into the copy in order. -/

/-- Dict lookup, `d.get(k)`: the value of the first entry whose key is `k`. -/
def dget {α : Type} : List (String × α) → String → Option α
  | [], _ => none
  | p :: rest, k => if p.1 = k then some p.2 else dget rest k

/-- Dict assignment `d[k] = v`: replace the first entry with key `k` in
place, or append a new entry when the key is absent. -/
def dset {α : Type} : List (String × α) → String → α → List (String × α)
  | [], k, v => [(k, v)]
  | p :: rest, k, v => if p.1 = k then (k, v) :: rest else p :: dset rest k v

/-- `base.copy(); copy.update(ov)`: assign every item of `ov` into `base`
in order. -/
def dupdate {α : Type} (base ov : List (String × α)) : List (String × α) :=
  ov.foldl (fun acc p => dset acc p.1 p.2) base

/-- A top-level value of the configuration dict: the three path/address
entries are strings and `retention_policies` is a nested dict from pattern
name to retention age in days. -/
inductive ConfigVal where
  | str (s : String)
  | policies (m : List (String × Int))
deriving DecidableEq, Repr

/-- The built-in `DEFAULT_CONFIG` dict of the script, in source order. -/
def DEFAULT_CONFIG : List (String × ConfigVal) :=
  [("logfile", .str "/var/log/zfs-killsnaps.log"),
   ("lockfile", .str "/var/run/zfs-killsnaps.lock"),
   ("email_recipient", .str "admin@example.com"),
   ("retention_policies",
     .policies [("daily", 7), ("weekly", 30), ("monthly", 90), ("autosnap", 14)])]

/-- `load_config(path)`. The filesystem and the YAML parser are oracles:
`pathExists` is `os.path.exists(path)` and `parsed` is the outcome of
`yaml.safe_load` on the file's contents (`none` models a raised
`yaml.YAMLError`; an empty document, for which `safe_load` returns `None`
and the script substitutes `{}` via `data or {}`, is `some []`). When the
path does not exist the defaults are returned unchanged; otherwise the
parsed dict is shallow-merged over a copy of the defaults via `update`. -/
def load_config (pathExists : Bool) (parsed : Option (List (String × ConfigVal))) :
    Except PyErr (List (String × ConfigVal)) :=
  if !pathExists then .ok DEFAULT_CONFIG
  else
    match parsed with
    | none => .error .yamlError
    | some data => .ok (dupdate DEFAULT_CONFIG data)

/-! ### Laws of the dict model -/

/-- Looking up `k` after `d[k'] := v`: hits the new value exactly when
`k = k'`. -/
theorem dget_dset {α : Type} (d : List (String × α)) (k' k : String) (v : α) :
    dget (dset d k' v) k = if k = k' then some v else dget d k := by
  induction d with
  | nil =>
    by_cases hk : k = k'
    · subst hk; simp [dset, dget]
    · have hk' : ¬ k' = k := fun h => hk h.symm
      simp [dset, dget, hk, hk']
  | cons p rest ih =>
    by_cases hp : p.1 = k'
    · by_cases hk : k = k'
      · subst hk; simp [dset, dget, hp]
      · have hk' : ¬ k' = k := fun h => hk h.symm
        have hpk : ¬ p.1 = k := fun h => hk (h.symm.trans hp)
        simp [dset, dget, hp, hk, hk', hpk]
    · by_cases hpk : p.1 = k
      · have hk : ¬ k = k' := fun h => hp (hpk.trans h)
        simp [dset, dget, hp, hpk, hk]
      · simp [dset, dget, hp, hpk, ih]

/-- A key absent from a dict's key list looks up to `none`. -/
theorem dget_eq_none_of_not_mem {α : Type} (d : List (String × α)) (k : String)
    (h : k ∉ d.map Prod.fst) : dget d k = none := by
  induction d with
  | nil => rfl
  | cons p rest ih =>
    simp only [List.map_cons, List.mem_cons] at h
    push_neg at h
    have hp : ¬ p.1 = k := fun hh => h.1 hh.symm
    simp [dget, hp, ih h.2]

/-- Shallow-merge law: after `base.copy().update(ov)` (with `ov` a genuine
dict, i.e. no duplicate keys), each key maps to `ov`'s value when present
there and to `base`'s value otherwise. -/
theorem dget_dupdate {α : Type} (ov : List (String × α))
    (hnd : (ov.map Prod.fst).Nodup) (base : List (String × α)) (k : String) :
    dget (dupdate base ov) k = (dget ov k).or (dget base k) := by
  induction ov generalizing base with
  | nil => simp [dupdate, dget]
  | cons p rest ih =>
    simp only [List.map_cons, List.nodup_cons] at hnd
    have hstep : dupdate base (p :: rest) = dupdate (dset base p.1 p.2) rest := by
      simp [dupdate]
    rw [hstep, ih hnd.2]
    by_cases hk : p.1 = k
    · subst hk
      have hrest : dget rest p.1 = none :=
        dget_eq_none_of_not_mem rest p.1 hnd.1
      simp [dget, hrest, dget_dset]
    · have hkk : ¬ k = p.1 := fun h => hk h.symm
      simp [dget, hk, dget_dset, hkk]

/-! ## Character-level string helpers

Mirrors of the Python string operations the script uses, phrased over
`List Char` so that all definitions reduce in the kernel. -/

/-- Split a character list at every separator recognized by `p`, keeping
empty pieces (like Python `str.split(sep)` with explicit separator). -/
def splitPred (p : Char → Bool) : List Char → List (List Char)
  | [] => [[]]
  | c :: rest =>
    match splitPred p rest with
    | [] => [[]]
    | t :: ts => if p c then [] :: t :: ts else (c :: t) :: ts

/-- Python `\s` over ASCII: the whitespace characters recognized by
`str.split()` and by whitespace in a `strptime` format. -/
def isSpace (c : Char) : Bool :=
  c = ' ' || c = '\t' || c = '\n' || c = '\x0d' || c = '\x0b' || c = '\x0c'

/-- Whitespace-delimited tokens of a string (runs of whitespace separate,
empty tokens dropped), as in Python `str.split()`. -/
def wsTokens (cs : List Char) : List (List Char) :=
  (splitPred isSpace cs).filter (fun t => !t.isEmpty)

/-- `out.splitlines()` on the stripped stdout of `run_cmd`: the stdout is
`strip()`ed, so it never ends in a newline; splitting on `\x0a` then agrees
with Python `splitlines` for newline-separated text, with the empty string
giving no lines. -/
def splitlines (s : String) : List String :=
  if s.data.isEmpty then []
  else (splitPred (fun c => c = '\n') s.data).map (fun t => String.mk t)

/-- `line.split('\t')[0]`: the first tab-delimited field of a line. -/
def firstField (line : String) : String :=
  String.mk (line.data.takeWhile (fun c => c != '\t'))

/-- Python substring containment `sub in s`: `sub` occurs contiguously in
`s` (the empty string is contained in everything). -/
def strContains (sub : List Char) : List Char → Bool
  | [] => sub.isEmpty
  | c :: rest => sub.isPrefixOf (c :: rest) || strContains sub rest

/-! ## `datetime.strptime(date_str, "%a %b %d %H:%M %Y")`

The script parses `zfs get creation` output with this fixed format. We
model the parse as `String → Option Int`, returning the creation time in
seconds since the epoch; `none` models a raised `ValueError`. Field
constraints follow CPython `_strptime`: `%a`/`%b` match abbreviated
(locale-English) names case-insensitively, `%d` is 1–31 in at most two
digits, `%H` is 0–23, `%M` is 0–59, `%Y` is exactly four digits, and the
assembled date must be a real calendar date in a supported year. -/

/-- ASCII lowercasing of one character. -/
def lowerChar (c : Char) : Char :=
  if 'A' ≤ c ∧ c ≤ 'Z' then Char.ofNat (c.toNat + 32) else c

/-- ASCII lowercasing of a token. -/
def lowerTok (cs : List Char) : List Char := cs.map lowerChar

/-- Abbreviated month names accepted by `%b`, in month order. -/
def MONTH_ABBRS : List (List Char) :=
  ["jan", "feb", "mar", "apr", "may", "jun",
   "jul", "aug", "sep", "oct", "nov", "dec"].map String.data

/-- Abbreviated weekday names accepted by `%a`. -/
def DAY_ABBRS : List (List Char) :=
  ["mon", "tue", "wed", "thu", "fri", "sat", "sun"].map String.data

/-- The value of a non-empty all-digit token, `none` otherwise. -/
def digitsVal? (tok : List Char) : Option Nat :=
  if !tok.isEmpty ∧ tok.all Char.isDigit then
    some (tok.foldl (fun a c => a * 10 + (c.toNat - 48)) 0)
  else none

/-- Gregorian leap-year test (as in Python's `datetime`). -/
def isLeap (y : Int) : Bool :=
  (y % 4 == 0 && y % 100 != 0) || y % 400 == 0

/-- Number of days in month `m` (1–12) of year `y`. -/
def daysInMonth (y : Int) (m : Nat) : Nat :=
  if m = 2 then (if isLeap y then 29 else 28)
  else if m = 4 ∨ m = 6 ∨ m = 9 ∨ m = 11 then 30 else 31

/-- Days from 1970-01-01 to the civil date `y-m-d` (proleptic Gregorian,
the standard `days_from_civil` computation). -/
def daysFromCivil (y : Int) (m d : Nat) : Int :=
  let yy : Int := if m ≤ 2 then y - 1 else y
  let era : Int := Int.fdiv yy 400
  let yoe : Int := yy - era * 400
  let mp : Int := ((m : Int) + 9) % 12
  let doy : Int := Int.fdiv (153 * mp + 2) 5 + (d : Int) - 1
  let doe : Int := yoe * 365 + Int.fdiv yoe 4 - Int.fdiv yoe 100 + doy
  era * 146097 + doe - 719468

/-- Seconds since the epoch of the wall-clock instant `y-m-d hh:mm:00`. -/
def dtToEpochSeconds (y : Int) (m d hh mm : Nat) : Int :=
  daysFromCivil y m d * 86400 + (hh : Int) * 3600 + (mm : Int) * 60

/-- `parse_creation_date(date_str)`, i.e.
`datetime.strptime(date_str, "%a %b %d %H:%M %Y")`, as epoch seconds;
`none` models the `ValueError` the call raises on any malformed input. -/
def parse_creation_date (s : String) : Option Int :=
  match wsTokens s.data with
  | [wd, mon, day, hm, yr] =>
    if DAY_ABBRS.contains (lowerTok wd) then
      match MONTH_ABBRS.findIdx? (fun a => a == lowerTok mon) with
      | some mi =>
        match digitsVal? day, splitPred (fun c => c = ':') hm with
        | some d, [ht, mt] =>
          match digitsVal? ht, digitsVal? mt, digitsVal? yr with
          | some hh, some mm, some y =>
            if day.length ≤ 2 ∧ 1 ≤ d ∧ d ≤ 31 ∧
               ht.length ≤ 2 ∧ hh ≤ 23 ∧ mt.length ≤ 2 ∧ mm ≤ 59 ∧
               yr.length = 4 ∧ 1 ≤ y ∧ d ≤ daysInMonth (y : Int) (mi + 1) then
              some (dtToEpochSeconds (y : Int) (mi + 1) d hh mm)
            else none
          | _, _, _ => none
        | _, _ => none
      | none => none
    else none
  | _ => none

/-! ## Age evaluation -/

/-- `(datetime.now() - creation_time).days`: Python `timedelta.days` is the
floor of the difference measured in whole days. Instants are epoch
seconds. -/
def elapsedDays (now creation : Int) : Int :=
  Int.fdiv (now - creation) 86400

/-- The comparison performed by `is_older_than` once the timestamp has
been parsed: elapsed whole days `≥ days`. -/
def ageCheck (now creation days : Int) : Bool :=
  days ≤ elapsedDays now creation

/-- `is_older_than(creation_str, days)` at clock instant `now`. The result
is `none` when `parse_creation_date` raises `ValueError`, which the caller
does not catch. -/
def is_older_than (now : Int) (creation_str : String) (days : Int) : Option Bool :=
  (parse_creation_date creation_str).map (fun t => ageCheck now t days)

/-- `get_policy_age(pattern, policies)`: `policies.get(pattern, 0)`. -/
def get_policy_age (pattern : String) (policies : List (String × Int)) : Int :=
  (dget policies pattern).getD 0

/-- The `age_days = args.age or get_policy_age(...)` assignment in
`__main__`, with Python truthiness: an absent `--age` (`None`) and an
explicit `--age 0` are both falsy and fall back to the policy lookup. -/
def resolve_age_days (argsAge : Option Int) (pattern : String)
    (policies : List (String × Int)) : Int :=
  match argsAge with
  | none => get_policy_age pattern policies
  | some a => if a ≠ 0 then a else get_policy_age pattern policies

example : parse_creation_date "Tue Jan 14 03:00 2025" = some 1736823600 := by decide
example : parse_creation_date "garbage" = none := by decide
example : parse_creation_date "Thu Feb  6 10:30 2025" = some (dtToEpochSeconds 2025 2 6 10 30) := by decide
example : parse_creation_date "Tue Feb 30 03:00 2025" = none := by decide

/-! ## The external world

Everything the script observes from outside — outcomes of the `zfs`
invocations and the current clock reading — packaged as oracles. Each
`run_cmd` result is the already-`strip()`ed stdout, the stderr, and the
return code. -/

/-- Oracles for the external `zfs` tool and the clock. `listOut/listErr/
listCode` are the result of `zfs list -H -t snapshot`; `creationOut s` etc.
the result of `zfs get -H -o value creation s`; `destroyErr s/destroyCode s`
the result of the destroy command for snapshot `s`; `now` is
`datetime.now()` in epoch seconds. -/
structure Env where
  listOut : String
  listErr : String
  listCode : Int
  creationOut : String → String
  creationErr : String → String
  creationCode : String → Int
  destroyErr : String → String
  destroyCode : String → Int
  now : Int

/-! ## Snapshot enumerator (`load_snapshots`) -/

/-- The filter condition of `load_snapshots`:
`pattern in name and (not pool or name.startswith(pool + '@') or
name.startswith(pool + '/'))`. Python truthiness makes an empty-string
pool behave like an absent one. -/
def snapFilter (pattern : String) (pool : Option String) (name : String) : Bool :=
  strContains pattern.data name.data &&
  (match pool with
   | none => true
   | some p =>
     p.data.isEmpty ||
     List.isPrefixOf (p.data ++ ['@']) name.data ||
     List.isPrefixOf (p.data ++ ['/']) name.data)

/-- The accumulation loop of `load_snapshots`: for each line take the
first tab-delimited field and append it when the filter holds. -/
def snap_names (pattern : String) (pool : Option String) (out : String) : List String :=
  (splitlines out).foldl
    (fun acc line =>
      let name := firstField line
      if snapFilter pattern pool name then acc ++ [name] else acc)
    []

/-- `load_snapshots(pattern, pool)`: on a non-zero list return code the
script logs an error and calls `sys.exit(1)`; otherwise it returns the
filtered names in output order. -/
def load_snapshots (pattern : String) (pool : Option String) (out : String)
    (code : Int) : Except PyErr (List String) :=
  if code ≠ 0 then .error (.sysExit 1)
  else .ok (snap_names pattern pool out)

/-! ## Per-snapshot processing and the destroyer (`cleanup_snapshots`) -/

/-- One issued `zfs destroy` invocation: the command string, the snapshot
it names, and the return code the external tool reported. -/
structure DestroyCall where
  cmd : String
  snap : String
  code : Int
deriving DecidableEq, Repr

/-- The command string `f"zfs destroy {flag} {snap}"` built by
`cleanup_snapshots` (note the doubled space when not recursive, exactly as
the f-string produces). -/
def mkDestroyCmd (recursive : Bool) (snap : String) : String :=
  "zfs destroy " ++ (if recursive then "-r" else "") ++ " " ++ snap

/-- Observable outcome of `cleanup_snapshots`: log lines appended, destroy
invocations issued, and the `destroyed` counter. -/
structure CleanupOut where
  log : List LogEntry
  calls : List DestroyCall
  destroyed : Nat
deriving DecidableEq, Repr

/-- Log message of `get_snapshot_creation` on a non-zero return code. -/
def couldNotGetMsg (snap err : String) : String :=
  "Could not get creation time for " ++ snap ++ ": " ++ err

/-- Log message `f"Found snapshot: {snap} (created {creation_str})"`. -/
def foundMsg (snap cstr : String) : String :=
  "Found snapshot: " ++ snap ++ " (created " ++ cstr ++ ")"

/-- Log message `f"[Dry-run] Would destroy {snap}"`. -/
def dryMsg (snap : String) : String :=
  "[Dry-run] Would destroy " ++ snap

/-- Log message `f"Destroyed: {snap}"`. -/
def destroyedMsg (snap : String) : String :=
  "Destroyed: " ++ snap

/-- Log message `f"Failed to destroy {snap}: {err}"`. -/
def failedMsg (snap err : String) : String :=
  "Failed to destroy " ++ snap ++ ": " ++ err

/-- Log message `f"No snapshots matching '{pattern}' found."`. -/
def noSnapsMsg (pattern : String) : String :=
  "No snapshots matching \x27" ++ pattern ++ "\x27 found."

/-- Log message `f"Total snapshots destroyed: {destroyed}"`. -/
def totalMsg (n : Nat) : String :=
  "Total snapshots destroyed: " ++ toString n

/-- One iteration of the `for snap in snapshots` loop of
`cleanup_snapshots`. `get_snapshot_creation` logs a warning and yields
`None` on a non-zero return code; a falsy (missing or empty) creation
string skips the snapshot; `is_older_than` may raise `ValueError`
(`.error .valueError`), which the loop does not catch; otherwise the
snapshot is logged, then dry-run logs the intent while live mode issues
the destroy command and counts successes. -/
def processSnap (env : Env) (dryRun recursive : Bool) (ageDays : Int)
    (acc : CleanupOut) (snap : String) : Except PyErr CleanupOut :=
  if env.creationCode snap ≠ 0 then
    .ok { acc with
          log := acc.log ++ [LogEntry.mk .warning (couldNotGetMsg snap (env.creationErr snap))] }
  else if (env.creationOut snap).data.isEmpty then
    .ok acc
  else
    match parse_creation_date (env.creationOut snap) with
    | none => .error .valueError
    | some t =>
      if ageCheck env.now t ageDays then
        let acc1 := { acc with
                      log := acc.log ++ [LogEntry.mk .info (foundMsg snap (env.creationOut snap))] }
        if dryRun then
          .ok { acc1 with log := acc1.log ++ [LogEntry.mk .info (dryMsg snap)] }
        else
          let code := env.destroyCode snap
          let acc2 := { acc1 with
                        calls := acc1.calls ++ [DestroyCall.mk (mkDestroyCmd recursive snap) snap code] }
          if code = 0 then
            .ok { acc2 with
                  log := acc2.log ++ [LogEntry.mk .info (destroyedMsg snap)],
                  destroyed := acc2.destroyed + 1 }
          else
            .ok { acc2 with
                  log := acc2.log ++ [LogEntry.mk .error (failedMsg snap (env.destroyErr snap))] }
      else
        .ok acc

/-- The whole `for snap in snapshots` loop, threading the accumulator and
propagating an uncaught exception. -/
def runSnaps (env : Env) (dryRun recursive : Bool) (ageDays : Int) :
    CleanupOut → List String → Except PyErr CleanupOut
  | acc, [] => .ok acc
  | acc, snap :: rest =>
    match processSnap env dryRun recursive ageDays acc snap with
    | .error e => .error e
    | .ok acc1 => runSnaps env dryRun recursive ageDays acc1 rest

/-- `cleanup_snapshots(pattern, age_days, recursive, dry_run, pool, config)`:
list and filter, short-circuit with an informational log when nothing
matched, otherwise run the loop and finish by logging the destroyed
total. -/
def cleanup_snapshots (env : Env) (pattern : String) (ageDays : Int)
    (recursive dryRun : Bool) (pool : Option String) : Except PyErr CleanupOut :=
  match load_snapshots pattern pool env.listOut env.listCode with
  | .error e => .error e
  | .ok snaps =>
    if snaps.isEmpty then
      .ok ⟨[LogEntry.mk .info (noSnapsMsg pattern)], [], 0⟩
    else
      match runSnaps env dryRun recursive ageDays ⟨[], [], 0⟩ snaps with
      | .error e => .error e
      | .ok out => .ok { out with log := out.log ++ [LogEntry.mk .info (totalMsg out.destroyed)] }

/-! ## Run lock and main -/

/-- `os.path.exists` over a filesystem modelled as the list of existing
paths. -/
def os_path_exists (fs : List String) (p : String) : Bool := fs.contains p

/-- `os.remove(p)`: removes the path, raising `FileNotFoundError` when it
does not exist. This is the body of the release handle
`lambda: os.remove(lockfile)` returned by `lock_or_exit`. -/
def os_remove (fs : List String) (p : String) : Except PyErr (List String) :=
  if fs.contains p then .ok (fs.erase p) else .error .fileNotFound

/-- `lock_or_exit(lockfile)`: exits with status 1 when the lock file
already exists, otherwise creates it (returning the updated filesystem;
the release handle is `os_remove · lockfile`). -/
def lock_or_exit (fs : List String) (lockfile : String) : Except PyErr (List String) :=
  if os_path_exists fs lockfile then .error (.sysExit 1)
  else .ok (lockfile :: fs)

/-- `config['lockfile']`-style access: the defaults guarantee the key is
present with a string value for every config the script builds. -/
def cfgStr (cfg : List (String × ConfigVal)) (k : String) : String :=
  match dget cfg k with
  | some (.str s) => s
  | _ => ""

/-- `config['retention_policies']` as a policy map. -/
def cfgPolicies (cfg : List (String × ConfigVal)) : List (String × Int) :=
  match dget cfg "retention_policies" with
  | some (.policies m) => m
  | _ => []

/-- The parsed command-line arguments, with `argparse`'s defaults. -/
structure MainArgs where
  pattern : String := "weekly"
  age : Option Int := none
  recursive : Bool := false
  dryRun : Bool := false
  pool : Option String := none

/-- What the `__main__` block observes from outside: whether the config
path exists, the outcome of parsing it, the filesystem state for the lock
check, and the `Env` oracles for the pipeline. -/
structure MainEnv where
  configExists : Bool
  configParsed : Option (List (String × ConfigVal))
  fs0 : List String
  env : Env

/-- Observable outcome of one process run: the exit status, whether the
lock release ran to completion, whether `send_email` was reached, and the
pipeline outcome when it completed. -/
structure MainOut where
  exitCode : Int
  lockReleased : Bool
  notifierInvoked : Bool
  result : Option CleanupOut
deriving Repr

/-- The `__main__` block. Config loading and `lock_or_exit` run before
the `try`, so a failure in either exits without entering the `finally`
(no lock release, no notification). Inside the `try`, any exception from
`cleanup_snapshots` still passes through `unlock()` and `send_email` in
the `finally`; an exception raised by `unlock()` itself would skip
`send_email`. Exit status: 0 on normal completion, the `sys.exit` code
for `SystemExit`, 1 for any other uncaught exception. -/
def main_run (args : MainArgs) (m : MainEnv) : MainOut :=
  match load_config m.configExists m.configParsed with
  | .error _ => ⟨1, false, false, none⟩
  | .ok config =>
    let lockfile := cfgStr config "lockfile"
    match lock_or_exit m.fs0 lockfile with
    | .error _ => ⟨1, false, false, none⟩
    | .ok fs1 =>
      let ageDays := resolve_age_days args.age args.pattern (cfgPolicies config)
      let res := cleanup_snapshots m.env args.pattern ageDays args.recursive
                   args.dryRun args.pool
      match os_remove fs1 lockfile with
      | .error _ =>
        ⟨1, false, false, none⟩
      | .ok _ =>
        match res with
        | .ok out => ⟨0, true, true, some out⟩
        | .error (.sysExit c) => ⟨c, true, true, none⟩
        | .error _ => ⟨1, true, true, none⟩

/-! ## Loop decomposition

`processSnap` only ever appends to the accumulator; `snapStep` computes
the appended contribution of one snapshot independently of the
accumulator, which makes the loop invariants below straightforward
inductions. -/

/-- The contribution of one snapshot to the loop accumulator (its log
lines, destroy calls and destroyed-count increment), or the exception it
raises. -/
def snapStep (env : Env) (dryRun recursive : Bool) (ageDays : Int) (snap : String) :
    Except PyErr (List LogEntry × List DestroyCall × Nat) :=
  if env.creationCode snap ≠ 0 then
    .ok ([LogEntry.mk .warning (couldNotGetMsg snap (env.creationErr snap))], [], 0)
  else if (env.creationOut snap).data.isEmpty then
    .ok ([], [], 0)
  else
    match parse_creation_date (env.creationOut snap) with
    | none => .error .valueError
    | some t =>
      if ageCheck env.now t ageDays then
        if dryRun then
          .ok ([LogEntry.mk .info (foundMsg snap (env.creationOut snap)),
                LogEntry.mk .info (dryMsg snap)], [], 0)
        else
          if env.destroyCode snap = 0 then
            .ok ([LogEntry.mk .info (foundMsg snap (env.creationOut snap)),
                  LogEntry.mk .info (destroyedMsg snap)],
                 [DestroyCall.mk (mkDestroyCmd recursive snap) snap (env.destroyCode snap)], 1)
          else
            .ok ([LogEntry.mk .info (foundMsg snap (env.creationOut snap)),
                  LogEntry.mk .error (failedMsg snap (env.destroyErr snap))],
                 [DestroyCall.mk (mkDestroyCmd recursive snap) snap (env.destroyCode snap)], 0)
      else .ok ([], [], 0)

/-- `processSnap` appends exactly the `snapStep` contribution. -/
theorem processSnap_eq_step (env : Env) (d r : Bool) (a : Int) (acc : CleanupOut)
    (snap : String) :
    processSnap env d r a acc snap =
      match snapStep env d r a snap with
      | .error e => .error e
      | .ok δ => .ok ⟨acc.log ++ δ.1, acc.calls ++ δ.2.1, acc.destroyed + δ.2.2⟩ := by
  simp only [processSnap, snapStep]
  split
  · simp
  · split
    · simp
    · split
      · rfl
      · split
        · split
          · simp [List.append_assoc]
          · split
            · simp [List.append_assoc]
            · simp [List.append_assoc]
        · simp

/-- A snapshot that cannot raise: its fetch fails, the fetched creation
string is falsy, or the string parses. -/
def safeSnap (env : Env) (s : String) : Bool :=
  (env.creationCode s != 0) || (env.creationOut s).data.isEmpty ||
  (parse_creation_date (env.creationOut s)).isSome

/-- A snapshot the loop finds eligible for destruction: fetch succeeded,
the creation string is non-empty and parses, and the age check holds. -/
def eligibleSnap (env : Env) (ageDays : Int) (s : String) : Bool :=
  (env.creationCode s == 0) && (!(env.creationOut s).data.isEmpty) &&
  (match parse_creation_date (env.creationOut s) with
   | some t => ageCheck env.now t ageDays
   | none => false)

/-- A safe snapshot never raises: its `snapStep` is an `ok`. -/
theorem snapStep_safe (env : Env) (d r : Bool) (a : Int) (s : String)
    (h : safeSnap env s = true) : ∃ δ, snapStep env d r a s = .ok δ := by
  cases hs : snapStep env d r a s with
  | ok δ => exact ⟨δ, rfl⟩
  | error e =>
    exfalso
    simp only [snapStep] at hs
    split at hs
    · cases hs
    · split at hs
      · cases hs
      · split at hs
        · simp_all [safeSnap]
        · split at hs
          · split at hs
            · cases hs
            · split at hs <;> cases hs
          · cases hs

/-- Every destroy call contributed by a snapshot names that snapshot. -/
theorem snapStep_calls_snap (env : Env) (d r : Bool) (a : Int) (s : String)
    (δ : List LogEntry × List DestroyCall × Nat)
    (h : snapStep env d r a s = .ok δ) : ∀ c ∈ δ.2.1, c.snap = s := by
  simp only [snapStep] at h
  split at h
  · cases h; intro c hc; simp at hc
  · split at h
    · cases h; intro c hc; simp at hc
    · split at h
      · cases h
      · split at h
        · split at h
          · cases h; intro c hc; simp at hc
          · split at h
            · cases h; intro c hc; simp at hc; simp [hc]
            · cases h; intro c hc; simp at hc; simp [hc]
        · cases h; intro c hc; simp at hc

/-- The destroyed-count increment of one snapshot equals the number of
successful destroy calls it contributed. -/
theorem snapStep_count (env : Env) (d r : Bool) (a : Int) (s : String)
    (δ : List LogEntry × List DestroyCall × Nat)
    (h : snapStep env d r a s = .ok δ) :
    δ.2.2 = (δ.2.1.filter (fun c => c.code == 0)).length := by
  simp only [snapStep] at h
  split at h
  · cases h; rfl
  · split at h
    · cases h; rfl
    · split at h
      · cases h
      · split at h
        · split at h
          · cases h; rfl
          · split at h
            · rename_i hcode
              have hb : (env.destroyCode s == 0) = true := by simpa using hcode
              cases h; simp [List.filter, hb]
            · rename_i hcode
              have hb : (env.destroyCode s == 0) = false := by simpa using hcode
              cases h; simp [List.filter, hb]
        · cases h; rfl

/-- In dry-run mode a snapshot contributes no destroy calls and no count,
and an eligible snapshot contributes its "Would destroy" log line. -/
theorem snapStep_dry (env : Env) (r : Bool) (a : Int) (s : String)
    (δ : List LogEntry × List DestroyCall × Nat)
    (h : snapStep env true r a s = .ok δ) :
    δ.2.1 = [] ∧ δ.2.2 = 0 ∧
      (eligibleSnap env a s = true → LogEntry.mk .info (dryMsg s) ∈ δ.1) := by
  simp only [snapStep] at h
  split at h
  · rename_i h1
    cases h
    refine ⟨rfl, rfl, fun he => ?_⟩
    simp [eligibleSnap] at he
    exact absurd he.1.1 h1
  · split at h
    · rename_i h1 h2
      cases h
      refine ⟨rfl, rfl, fun he => ?_⟩
      simp [eligibleSnap, h2] at he
    · split at h
      · cases h
      · split at h
        · rw [if_pos trivial] at h
          cases h
          exact ⟨rfl, rfl, fun _ => by simp⟩
        · rename_i hp hage
          cases h
          refine ⟨rfl, rfl, fun he => ?_⟩
          simp [eligibleSnap, hp] at he
          exact absurd he.2 hage

/-- A snapshot whose creation fetch fails contributes exactly its warning
line and nothing else. -/
theorem snapStep_fetchfail (env : Env) (d r : Bool) (a : Int) (s : String)
    (h1 : env.creationCode s ≠ 0) :
    snapStep env d r a s =
      .ok ([LogEntry.mk .warning (couldNotGetMsg s (env.creationErr s))], [], 0) := by
  simp [snapStep, h1]

/-- A completed loop only appends to the accumulator. -/
theorem runSnaps_decomp (env : Env) (d r : Bool) (a : Int) :
    ∀ (snaps : List String) (acc out : CleanupOut),
      runSnaps env d r a acc snaps = .ok out →
      ∃ l c n, out.log = acc.log ++ l ∧ out.calls = acc.calls ++ c ∧
        out.destroyed = acc.destroyed + n := by
  intro snaps
  induction snaps with
  | nil =>
    intro acc out h
    cases h
    exact ⟨[], [], 0, by simp, by simp, rfl⟩
  | cons s rest ih =>
    intro acc out h
    simp only [runSnaps] at h
    rw [processSnap_eq_step] at h
    cases hδ : snapStep env d r a s with
    | error e => rw [hδ] at h; cases h
    | ok δ =>
      rw [hδ] at h
      obtain ⟨l, c, n, hl, hc, hn⟩ := ih _ _ h
      refine ⟨δ.1 ++ l, δ.2.1 ++ c, δ.2.2 + n, ?_, ?_, ?_⟩
      · simpa [List.append_assoc] using hl
      · simpa [List.append_assoc] using hc
      · simpa [Nat.add_assoc] using hn

/-- Dry-run invariants of the loop: no destroy calls and no destroyed
count are added, existing log lines remain, and every eligible snapshot
gets its "Would destroy" line. -/
theorem runSnaps_dry (env : Env) (r : Bool) (a : Int) :
    ∀ (snaps : List String) (acc out : CleanupOut),
      runSnaps env true r a acc snaps = .ok out →
      out.calls = acc.calls ∧ out.destroyed = acc.destroyed ∧
      (∀ e ∈ acc.log, e ∈ out.log) ∧
      (∀ s ∈ snaps, eligibleSnap env a s = true →
        LogEntry.mk .info (dryMsg s) ∈ out.log) := by
  intro snaps
  induction snaps with
  | nil =>
    intro acc out h
    cases h
    exact ⟨rfl, rfl, fun e he => he, fun s hs => by simp at hs⟩
  | cons s rest ih =>
    intro acc out h
    simp only [runSnaps] at h
    rw [processSnap_eq_step] at h
    cases hδ : snapStep env true r a s with
    | error e => rw [hδ] at h; cases h
    | ok δ =>
      rw [hδ] at h
      obtain ⟨hcalls, hzero, hdry⟩ := snapStep_dry env r a s δ hδ
      obtain ⟨ihc, ihd, ihmono, ihdry⟩ := ih _ _ h
      refine ⟨by simp [ihc, hcalls], by simp [ihd, hzero], ?_, ?_⟩
      · intro e he
        exact ihmono e (by simp [he])
      · intro s' hs' helig
        rcases List.mem_cons.mp hs' with hh | hh
        · subst hh
          exact ihmono _ (by simp [hdry helig])
        · exact ihdry s' hh helig

/-- Counting invariant: if the destroyed counter equals the number of
successful destroy calls so far, it still does after the loop. -/
theorem runSnaps_count (env : Env) (d r : Bool) (a : Int) :
    ∀ (snaps : List String) (acc out : CleanupOut),
      runSnaps env d r a acc snaps = .ok out →
      acc.destroyed = (acc.calls.filter (fun c => c.code == 0)).length →
      out.destroyed = (out.calls.filter (fun c => c.code == 0)).length := by
  intro snaps
  induction snaps with
  | nil =>
    intro acc out h hinv
    cases h
    exact hinv
  | cons s rest ih =>
    intro acc out h hinv
    simp only [runSnaps] at h
    rw [processSnap_eq_step] at h
    cases hδ : snapStep env d r a s with
    | error e => rw [hδ] at h; cases h
    | ok δ =>
      rw [hδ] at h
      refine ih _ _ h ?_
      simp [List.filter_append, hinv, snapStep_count env d r a s δ hδ]

/-- A fetch-failed snapshot's warning line reaches the final log. -/
theorem runSnaps_warn (env : Env) (d r : Bool) (a : Int) :
    ∀ (snaps : List String) (acc out : CleanupOut) (s : String),
      runSnaps env d r a acc snaps = .ok out → s ∈ snaps →
      env.creationCode s ≠ 0 →
      LogEntry.mk .warning (couldNotGetMsg s (env.creationErr s)) ∈ out.log := by
  intro snaps
  induction snaps with
  | nil =>
    intro acc out s h hs
    simp at hs
  | cons s' rest ih =>
    intro acc out s h hs hcode
    simp only [runSnaps] at h
    rw [processSnap_eq_step] at h
    cases hδ : snapStep env d r a s' with
    | error e => rw [hδ] at h; cases h
    | ok δ =>
      rw [hδ] at h
      rcases List.mem_cons.mp hs with hh | hh
      · subst hh
        rw [snapStep_fetchfail env d r a s hcode] at hδ
        cases hδ
        obtain ⟨l, c, n, hl, _, _⟩ := runSnaps_decomp env d r a rest _ _ h
        rw [hl]
        simp
      · exact ih _ _ s h hh hcode

/-- A fetch-failed snapshot never acquires a destroy call. -/
theorem runSnaps_nocall (env : Env) (d r : Bool) (a : Int) :
    ∀ (snaps : List String) (acc out : CleanupOut) (s : String),
      runSnaps env d r a acc snaps = .ok out →
      env.creationCode s ≠ 0 →
      (∀ c ∈ acc.calls, c.snap ≠ s) →
      ∀ c ∈ out.calls, c.snap ≠ s := by
  intro snaps
  induction snaps with
  | nil =>
    intro acc out s h hcode hacc
    cases h
    exact hacc
  | cons s' rest ih =>
    intro acc out s h hcode hacc
    simp only [runSnaps] at h
    rw [processSnap_eq_step] at h
    cases hδ : snapStep env d r a s' with
    | error e => rw [hδ] at h; cases h
    | ok δ =>
      rw [hδ] at h
      refine ih _ _ s h hcode ?_
      intro c hc
      rcases List.mem_append.mp hc with hc | hc
      · exact hacc c hc
      · have hsnap := snapStep_calls_snap env d r a s' δ hδ c hc
        by_cases hss : s' = s
        · subst hss
          rw [snapStep_fetchfail env d r a s' hcode] at hδ
          cases hδ
          simp at hc
        · rw [hsnap]; exact hss

/-- When every listed snapshot is safe, the loop completes. -/
theorem runSnaps_total (env : Env) (d r : Bool) (a : Int) :
    ∀ (snaps : List String) (acc : CleanupOut),
      (∀ s ∈ snaps, safeSnap env s = true) →
      ∃ out, runSnaps env d r a acc snaps = .ok out := by
  intro snaps
  induction snaps with
  | nil =>
    intro acc _
    exact ⟨acc, rfl⟩
  | cons s rest ih =>
    intro acc hsafe
    obtain ⟨δ, hδ⟩ := snapStep_safe env d r a s (hsafe s (by simp))
    obtain ⟨out, hout⟩ := ih ⟨acc.log ++ δ.1, acc.calls ++ δ.2.1, acc.destroyed + δ.2.2⟩
      (fun s' hs' => hsafe s' (by simp [hs']))
    refine ⟨out, ?_⟩
    simp only [runSnaps]
    rw [processSnap_eq_step, hδ]
    exact hout

/-! ## Enumerator characterization -/

/-- The append-loop of `load_snapshots` is the filter of the mapped first
fields, in output order. -/
theorem snap_names_eq_filter (pattern : String) (pool : Option String) (out : String) :
    snap_names pattern pool out =
      ((splitlines out).map firstField).filter (snapFilter pattern pool) := by
  have hgen : ∀ (l : List String) (acc : List String),
      l.foldl (fun acc line =>
        let name := firstField line
        if snapFilter pattern pool name then acc ++ [name] else acc) acc
      = acc ++ (l.map firstField).filter (snapFilter pattern pool) := by
    intro l
    induction l with
    | nil => intro acc; simp
    | cons x xs ih =>
      intro acc
      simp only [List.foldl_cons, List.map_cons, List.filter_cons]
      by_cases hx : snapFilter pattern pool (firstField x) = true
      · simp [hx, ih, List.append_assoc]
      · simp [hx, ih]
  simpa [snap_names] using hgen (splitlines out) []

/-- The "name portion" of a snapshot identifier in the sense of the spec:
the part after the first `@`. Stated from the spec's words, for comparison
with the substring test the code actually performs. -/
def namePortion (x : String) : String :=
  String.mk ((x.data.dropWhile (fun c => c != '@')).drop 1)

/-- Unfolding of the enumerator's filter condition into the spec's shape:
pattern contained in the (full) identifier, and the pool constraint with
Python truthiness (absent or empty pool means no constraint). -/
theorem snapFilter_true_iff (pattern : String) (pool : Option String) (name : String) :
    snapFilter pattern pool name = true ↔
      (strContains pattern.data name.data = true ∧
       (pool = none ∨ pool = some "" ∨
        ∃ p, pool = some p ∧
          (List.isPrefixOf (p.data ++ ['@']) name.data = true ∨
           List.isPrefixOf (p.data ++ ['/']) name.data = true))) := by
  cases pool with
  | none => simp [snapFilter]
  | some p =>
    have hps : (p.data.isEmpty = true) ↔ p = "" := by
      simp [List.isEmpty_iff, String.ext_iff]
    simp only [snapFilter, Bool.and_eq_true, Bool.or_eq_true, hps,
      Option.some.injEq, exists_eq_left']
    tauto

/-! ## `cleanup_snapshots` inversion and completion -/

/-- Inversion of a completed `cleanup_snapshots` run: the listing
succeeded, and either nothing matched (and the run produced exactly the
informational line, no calls, count 0) or the loop completed and the total
line was appended. -/
theorem cleanup_inv (env : Env) (pattern : String) (a : Int) (r d : Bool)
    (pool : Option String) (out : CleanupOut)
    (h : cleanup_snapshots env pattern a r d pool = .ok out) :
    env.listCode = 0 ∧
    ((snap_names pattern pool env.listOut = [] ∧
        out = ⟨[LogEntry.mk .info (noSnapsMsg pattern)], [], 0⟩) ∨
     (snap_names pattern pool env.listOut ≠ [] ∧
        ∃ mid, runSnaps env d r a ⟨[], [], 0⟩ (snap_names pattern pool env.listOut) = .ok mid ∧
          out = { mid with log := mid.log ++ [LogEntry.mk .info (totalMsg mid.destroyed)] })) := by
  by_cases hl : env.listCode = 0
  · have hred : cleanup_snapshots env pattern a r d pool =
        (if (snap_names pattern pool env.listOut).isEmpty then
           .ok ⟨[LogEntry.mk .info (noSnapsMsg pattern)], [], 0⟩
         else
           match runSnaps env d r a ⟨[], [], 0⟩ (snap_names pattern pool env.listOut) with
           | .error e => .error e
           | .ok mid =>
             .ok { mid with log := mid.log ++ [LogEntry.mk .info (totalMsg mid.destroyed)] }) := by
      simp only [cleanup_snapshots, load_snapshots]
      rw [if_neg (by simp [hl])]
    rw [hred] at h
    refine ⟨hl, ?_⟩
    split at h
    · rename_i hemp
      cases h
      exact .inl ⟨List.isEmpty_iff.mp hemp, rfl⟩
    · rename_i hemp
      split at h
      · cases h
      · rename_i mid hmid
        cases h
        exact .inr ⟨fun hc => hemp (by simp [hc]), mid, hmid, rfl⟩
  · exfalso
    simp only [cleanup_snapshots, load_snapshots] at h
    rw [if_pos hl] at h
    cases h

/-- When the listing succeeds and every matched snapshot is safe,
`cleanup_snapshots` completes normally. -/
theorem cleanup_total (env : Env) (pattern : String) (a : Int) (r d : Bool)
    (pool : Option String) (hl : env.listCode = 0)
    (hsafe : ∀ s ∈ snap_names pattern pool env.listOut, safeSnap env s = true) :
    ∃ out, cleanup_snapshots env pattern a r d pool = .ok out := by
  have hred : cleanup_snapshots env pattern a r d pool =
      (if (snap_names pattern pool env.listOut).isEmpty then
         .ok ⟨[LogEntry.mk .info (noSnapsMsg pattern)], [], 0⟩
       else
         match runSnaps env d r a ⟨[], [], 0⟩ (snap_names pattern pool env.listOut) with
         | .error e => .error e
         | .ok mid =>
           .ok { mid with log := mid.log ++ [LogEntry.mk .info (totalMsg mid.destroyed)] }) := by
    simp only [cleanup_snapshots, load_snapshots]
    rw [if_neg (by simp [hl])]
  rw [hred]
  split
  · exact ⟨_, rfl⟩
  · obtain ⟨mid, hmid⟩ := runSnaps_total env d r a _ ⟨[], [], 0⟩ hsafe
    rw [hmid]
    exact ⟨_, rfl⟩

/-! ## Helper computations -/

/-- Releasing a lock created on top of `fs` removes exactly that lock. -/
theorem os_remove_cons_self (fs : List String) (p : String) :
    os_remove (p :: fs) p = .ok fs := by
  simp [os_remove, List.contains_cons, List.erase_cons_head]

/-- A non-zero listing return code is fatal: `sys.exit(1)` out of
`load_snapshots`. -/
theorem cleanup_fatal_listing (env : Env) (pattern : String) (a : Int) (r d : Bool)
    (pool : Option String) (h : env.listCode ≠ 0) :
    cleanup_snapshots env pattern a r d pool = .error (.sysExit 1) := by
  simp [cleanup_snapshots, load_snapshots, h]

/-! ## Concrete environments for evaluation -/

/-- An inert environment: empty listing, all commands succeed. -/
def envTrivial : Env :=
  ⟨"", "", 0, fun _ => "", fun _ => "", fun _ => 0, fun _ => "", fun _ => 0, 0⟩

/-- One matched snapshot whose fetched creation string does not parse. -/
def envBadParse : Env :=
  { envTrivial with
    listOut := "tank@weekly-1\t0\t-\t0\t-",
    creationOut := fun _ => "garbage" }

/-- Two matched snapshots; the first one's creation fetch fails with a
non-zero status, the second parses fine. -/
def envW1 : Env :=
  { envTrivial with
    listOut := "tank@weekly-a\t-\ntank@weekly-b\t-",
    creationOut := fun _ => "Tue Jan 14 03:00 2025",
    creationErr := fun _ => "boom",
    creationCode := fun s => if s = "tank@weekly-a" then 1 else 0,
    now := 1736823600 }

/-- One matched snapshot, 40 days old against the 30-day threshold. -/
def envW8 : Env :=
  { envTrivial with
    listOut := "tank@weekly-a\t-",
    creationOut := fun _ => "Tue Jan 14 03:00 2025",
    now := 1736823600 + 40 * 86400 }

/-- An environment whose snapshot listing fails. -/
def envBadList : Env := { envTrivial with listCode := 1 }

/-- Default command-line arguments. -/
def argsD : MainArgs := {}

/-- A run started while the lock file already exists. -/
def mLockHeld : MainEnv := ⟨false, none, ["/var/run/zfs-killsnaps.lock"], envTrivial⟩

/-- A run whose config file exists but fails to parse. -/
def mBadConfig : MainEnv := ⟨true, none, [], envTrivial⟩

/-- A second lock-held filesystem, used to exercise the lock-held branch. -/
def mLockHeld2 : MainEnv := ⟨false, none, ["/var/run/zfs-killsnaps.lock", "/tmp/x"], envTrivial⟩

/-- A run whose snapshot listing fails. -/
def mBadList : MainEnv := ⟨false, none, [], envBadList⟩

/-- The override document used to evaluate the shallow merge. -/
def ovW : List (String × ConfigVal) :=
  [("retention_policies", .policies [("weekly", 1)])]

/-- The outcome of a dry run over `envW8`. -/
def outW8 : CleanupOut :=
  ⟨[LogEntry.mk .info (foundMsg "tank@weekly-a" "Tue Jan 14 03:00 2025"),
    LogEntry.mk .info (dryMsg "tank@weekly-a"),
    LogEntry.mk .info (totalMsg 0)], [], 0⟩

/-- The outcome of a live run over `envW8`. -/
def outW9 : CleanupOut :=
  ⟨[LogEntry.mk .info (foundMsg "tank@weekly-a" "Tue Jan 14 03:00 2025"),
    LogEntry.mk .info (destroyedMsg "tank@weekly-a"),
    LogEntry.mk .info (totalMsg 1)],
   [DestroyCall.mk (mkDestroyCmd false "tank@weekly-a") "tank@weekly-a" 0], 1⟩

example : cleanup_snapshots envBadParse "weekly" 30 false false none = .error .valueError := rfl
example : cleanup_snapshots envW8 "weekly" 30 false true none = .ok outW8 := rfl
example : cleanup_snapshots envW8 "weekly" 30 false false none = .ok outW9 := rfl

/-! ## Claim C1 — per-snapshot timestamp failures -/

/-- C1 counterexample: a snapshot whose fetched creation string fails to
parse does abort the whole run — `is_older_than` raises an uncaught
`ValueError` — contradicting the claim that such a failure never aborts
the run. -/
theorem C1_counterexample :
    cleanup_snapshots envBadParse "weekly" 30 false false none = .error .valueError := rfl

/-- C1 (amended): a snapshot whose timestamp fetch returns non-zero
external status is handled non-fatally — the run warns, excludes it from
further processing (no destroy call ever names it) and completes when the
remaining snapshots are well-formed; an unparseable fetched string, by
contrast, aborts the run (see the counterexample). -/
theorem C1_fetch_failure_nonfatal (env : Env) (pattern : String) (ageDays : Int)
    (recursive dryRun : Bool) (pool : Option String)
    (hlist : env.listCode = 0)
    (hsafe : ∀ s ∈ snap_names pattern pool env.listOut, safeSnap env s = true) :
    (∃ out, cleanup_snapshots env pattern ageDays recursive dryRun pool = .ok out) ∧
    (∀ out s, cleanup_snapshots env pattern ageDays recursive dryRun pool = .ok out →
      s ∈ snap_names pattern pool env.listOut →
      env.creationCode s ≠ 0 →
      LogEntry.mk .warning (couldNotGetMsg s (env.creationErr s)) ∈ out.log ∧
      ∀ c ∈ out.calls, c.snap ≠ s) := by
  constructor
  · exact cleanup_total env pattern ageDays recursive dryRun pool hlist hsafe
  · intro out s hok hmem hcode
    obtain ⟨-, hcase⟩ := cleanup_inv env pattern ageDays recursive dryRun pool out hok
    rcases hcase with ⟨hemp, -⟩ | ⟨-, mid, hmid, hout⟩
    · rw [hemp] at hmem; simp at hmem
    · have hw := runSnaps_warn env dryRun recursive ageDays _ _ _ s hmid hmem hcode
      have hnc := runSnaps_nocall env dryRun recursive ageDays _ _ _ s hmid hcode
        (by intro c hc; simp at hc)
      subst hout
      exact ⟨List.mem_append_left _ hw, hnc⟩

/-- C1 witness. -/
theorem C1_witness :
    (∃ out, cleanup_snapshots envW1 "weekly" 30 false false none = .ok out) ∧
    (∀ out s, cleanup_snapshots envW1 "weekly" 30 false false none = .ok out →
      s ∈ snap_names "weekly" none envW1.listOut →
      envW1.creationCode s ≠ 0 →
      LogEntry.mk .warning (couldNotGetMsg s (envW1.creationErr s)) ∈ out.log ∧
      ∀ c ∈ out.calls, c.snap ≠ s) :=
  C1_fetch_failure_nonfatal envW1 "weekly" 30 false false none rfl (by decide)

/-! ## Claim C2 — the enumerator's filter -/

/-- C2 counterexample: the code tests the pattern against the whole
identifier, not against the name portion after `@`: with pattern `tank`
the identifier `tank/data@snap1` is included although `tank` does not
occur in its name portion `snap1`. -/
theorem C2_counterexample :
    load_snapshots "tank" none "tank/data@snap1\t0\t-\t0\t-" 0 = .ok ["tank/data@snap1"] ∧
    strContains "tank".data (namePortion "tank/data@snap1").data = false :=
  ⟨rfl, rfl⟩

/-- C2 (amended): the enumerator includes an identifier X iff the pattern
is a substring of the full identifier (dataset part included) and the pool
is unset or empty or X starts with `pool@` or `pool/`; the result is the
filter of the listing's first fields in output order. -/
theorem C2_enumerator (pattern : String) (pool : Option String) (out : String) :
    load_snapshots pattern pool out 0 =
      .ok (((splitlines out).map firstField).filter (snapFilter pattern pool)) ∧
    (∀ x, x ∈ snap_names pattern pool out ↔
      (x ∈ (splitlines out).map firstField ∧
       strContains pattern.data x.data = true ∧
       (pool = none ∨ pool = some "" ∨
        ∃ p, pool = some p ∧
          (List.isPrefixOf (p.data ++ ['@']) x.data = true ∨
           List.isPrefixOf (p.data ++ ['/']) x.data = true)))) := by
  constructor
  · simp [load_snapshots, snap_names_eq_filter]
  · intro x
    rw [snap_names_eq_filter, List.mem_filter, snapFilter_true_iff]

/-! ## Claim C3 — fatal conditions, lock release and notification -/

/-- C3 counterexample: on lock contention the run exits non-zero, but the
`finally` block is never entered — the lock is not released (it belongs to
the other run) and the notifier is never invoked — contradicting the claim
that every fatal condition still performs lock release and notification. -/
theorem C3_counterexample :
    (main_run argsD mLockHeld).exitCode = 1 ∧
    (main_run argsD mLockHeld).lockReleased = false ∧
    (main_run argsD mLockHeld).notifierInvoked = false :=
  ⟨rfl, rfl, rfl⟩

/-- C3 (amended): fatal conditions raised inside the `try` block (the
snapshot-listing failure) exit non-zero after lock release and
notification; config parse failure and lock-already-held occur before the
`try` block, so the run exits non-zero without releasing any lock and
without invoking the notifier. -/
theorem C3_fatal_paths (args : MainArgs) (m : MainEnv) :
    (m.configExists = true → m.configParsed = none →
        main_run args m = ⟨1, false, false, none⟩) ∧
    (∀ cfg, load_config m.configExists m.configParsed = .ok cfg →
        os_path_exists m.fs0 (cfgStr cfg "lockfile") = true →
        main_run args m = ⟨1, false, false, none⟩) ∧
    (∀ cfg, load_config m.configExists m.configParsed = .ok cfg →
        os_path_exists m.fs0 (cfgStr cfg "lockfile") = false →
        m.env.listCode ≠ 0 →
        main_run args m = ⟨1, true, true, none⟩) := by
  refine ⟨?_, ?_, ?_⟩
  · intro hc hp
    simp [main_run, load_config, hc, hp]
  · intro cfg hcfg hlock
    simp [main_run, hcfg, lock_or_exit, hlock]
  · intro cfg hcfg hlock hcode
    have hclean := cleanup_fatal_listing m.env args.pattern
      (resolve_age_days args.age args.pattern (cfgPolicies cfg))
      args.recursive args.dryRun args.pool hcode
    simp [main_run, hcfg, lock_or_exit, hlock, hclean, os_remove_cons_self]

/-- C3 witness. -/
theorem C3_witness :
    main_run argsD mBadConfig = ⟨1, false, false, none⟩ ∧
    main_run argsD mLockHeld2 = ⟨1, false, false, none⟩ ∧
    main_run argsD mBadList = ⟨1, true, true, none⟩ :=
  ⟨(C3_fatal_paths argsD mBadConfig).1 rfl rfl,
   (C3_fatal_paths argsD mLockHeld2).2.1 DEFAULT_CONFIG rfl (by decide),
   (C3_fatal_paths argsD mBadList).2.2 DEFAULT_CONFIG rfl (by decide) (by decide)⟩

/-! ## Claim C4 — the `--age` override -/

/-- C4 counterexample: `--age 0` does not override the policy lookup —
`args.age or get_policy_age(...)` treats 0 as falsy — so with pattern
`weekly` the threshold is the policy's 30, not the flag's 0. -/
theorem C4_counterexample :
    resolve_age_days (some 0) "weekly" (cfgPolicies DEFAULT_CONFIG) = 30 ∧
    (30 : Int) ≠ 0 :=
  ⟨rfl, by decide⟩

/-- C4 (amended): when `--age` is present with any non-zero value the
retention threshold equals the flag's value; with the value 0 the policy
lookup is used instead. -/
theorem C4_nonzero_override (a : Int) (pattern : String)
    (policies : List (String × Int)) (h : a ≠ 0) :
    resolve_age_days (some a) pattern policies = a := by
  simp [resolve_age_days, h]

/-- C4 witness. -/
theorem C4_witness :
    (10 : Int) ≠ 0 ∧ resolve_age_days (some 10) "weekly" (cfgPolicies DEFAULT_CONFIG) = 10 :=
  ⟨by decide, C4_nonzero_override 10 "weekly" (cfgPolicies DEFAULT_CONFIG) (by decide)⟩

/-! ## Claim C5 — shallow config merge -/

/-- C5: the loaded configuration maps each top-level key to the override's
value when present and to the built-in default otherwise, and an override
that sets `retention_policies` yields exactly that map (the default policy
entries are replaced wholesale, not merged in). -/
theorem C5_shallow_merge (ov : List (String × ConfigVal))
    (hnd : (ov.map Prod.fst).Nodup) (k : String) (m : List (String × Int)) :
    load_config true (some ov) = .ok (dupdate DEFAULT_CONFIG ov) ∧
    dget (dupdate DEFAULT_CONFIG ov) k = (dget ov k).or (dget DEFAULT_CONFIG k) ∧
    (dget ov "retention_policies" = some (.policies m) →
      dget (dupdate DEFAULT_CONFIG ov) "retention_policies" = some (.policies m)) := by
  refine ⟨rfl, dget_dupdate ov hnd DEFAULT_CONFIG k, fun hm => ?_⟩
  rw [dget_dupdate ov hnd DEFAULT_CONFIG "retention_policies", hm]
  rfl

/-- C5 witness. -/
theorem C5_witness :
    load_config true (some ovW) = .ok (dupdate DEFAULT_CONFIG ovW) ∧
    dget (dupdate DEFAULT_CONFIG ovW) "logfile" =
      (dget ovW "logfile").or (dget DEFAULT_CONFIG "logfile") ∧
    (dget ovW "retention_policies" = some (.policies [("weekly", 1)]) →
      dget (dupdate DEFAULT_CONFIG ovW) "retention_policies" =
        some (.policies [("weekly", 1)])) :=
  C5_shallow_merge ovW (by decide) "logfile" [("weekly", 1)]

/-! ## Claim C6 — the inclusive age boundary -/

/-- C6: for every parsed creation timestamp and threshold N, the age check
returns true exactly when the elapsed whole days (floor of the difference
in days) is at least N; a snapshot exactly N days old passes threshold N
and fails threshold N+1. -/
theorem C6_age_boundary (now t N : Int) (s : String)
    (h : parse_creation_date s = some t) :
    (is_older_than now s N = some true ↔ N ≤ Int.fdiv (now - t) 86400) ∧
    (now - t = N * 86400 →
      is_older_than now s N = some true ∧ is_older_than now s (N + 1) = some false) := by
  constructor
  · simp [is_older_than, h, ageCheck, elapsedDays]
  · intro hb
    have hdiv : Int.fdiv (now - t) 86400 = N := by
      rw [hb, Int.fdiv_eq_ediv _ (by norm_num)]
      omega
    constructor
    · simp [is_older_than, h, ageCheck, elapsedDays, hdiv]
    · have hfalse : (decide (N + 1 ≤ Int.fdiv (now - t) 86400)) = false := by
        rw [hdiv]
        simp only [decide_eq_false_iff_not, not_le]
        omega
      simp [is_older_than, h, ageCheck, elapsedDays, hfalse]

/-- C6 witness. -/
theorem C6_witness :
    parse_creation_date "Tue Jan 14 03:00 2025" = some 1736823600 ∧
    ((is_older_than 1737255600 "Tue Jan 14 03:00 2025" 5 = some true ↔
        (5 : Int) ≤ Int.fdiv (1737255600 - 1736823600) 86400) ∧
     ((1737255600 : Int) - 1736823600 = 5 * 86400 →
        is_older_than 1737255600 "Tue Jan 14 03:00 2025" 5 = some true ∧
        is_older_than 1737255600 "Tue Jan 14 03:00 2025" (5 + 1) = some false)) :=
  ⟨by decide, C6_age_boundary 1737255600 1736823600 5 "Tue Jan 14 03:00 2025" (by decide)⟩

/-! ## Claim C7 — lock release on a missing marker -/

/-- C7 counterexample: calling the release handle when the marker file has
already been removed raises `FileNotFoundError` — `os.remove` escalates
the missing-file condition to the caller, contradicting the claim that
release is idempotent-safe. -/
theorem C7_counterexample :
    os_remove [] "/var/run/zfs-killsnaps.lock" = .error .fileNotFound := rfl

/-- C7 (amended): release raises `FileNotFoundError` (escalated to the
caller) whenever the marker is already gone; it succeeds, removing the
marker it created, exactly when invoked on the state the acquisition
produced. -/
theorem C7_release (fs : List String) (p : String) :
    (fs.contains p = false → os_remove fs p = .error .fileNotFound) ∧
    (∀ fs1, lock_or_exit fs p = .ok fs1 → os_remove fs1 p = .ok fs) := by
  constructor
  · intro h
    have hm : p ∉ fs := by simpa using h
    simp [os_remove, hm]
  · intro fs1 h
    simp only [lock_or_exit] at h
    split at h
    · cases h
    · cases h
      exact os_remove_cons_self fs p

/-- C7 witness. -/
theorem C7_witness :
    os_remove ["/etc"] "/var/run/zfs-killsnaps.lock" = .error .fileNotFound ∧
    os_remove ["/var/run/zfs-killsnaps.lock", "/etc"] "/var/run/zfs-killsnaps.lock" =
      .ok ["/etc"] :=
  ⟨(C7_release ["/etc"] "/var/run/zfs-killsnaps.lock").1 (by decide),
   (C7_release ["/etc"] "/var/run/zfs-killsnaps.lock").2
     ["/var/run/zfs-killsnaps.lock", "/etc"] rfl⟩

/-! ## Claim C8 — dry-run behaviour -/

/-- C8: a dry run issues zero destroy invocations, counts zero destroyed,
logs a "Would destroy" line for every eligible snapshot, and (when
anything matched) ends the log with a destroyed total of 0. -/
theorem C8_dry_run (env : Env) (pattern : String) (ageDays : Int) (recursive : Bool)
    (pool : Option String) (out : CleanupOut)
    (h : cleanup_snapshots env pattern ageDays recursive true pool = .ok out) :
    out.calls = [] ∧ out.destroyed = 0 ∧
    (∀ s ∈ snap_names pattern pool env.listOut,
      eligibleSnap env ageDays s = true → LogEntry.mk .info (dryMsg s) ∈ out.log) ∧
    (snap_names pattern pool env.listOut ≠ [] →
      out.log.getLast? = some (LogEntry.mk .info (totalMsg 0))) := by
  obtain ⟨-, hcase⟩ := cleanup_inv env pattern ageDays recursive true pool out h
  rcases hcase with ⟨hemp, hout⟩ | ⟨hne, mid, hmid, hout⟩
  · subst hout
    refine ⟨rfl, rfl, ?_, ?_⟩
    · intro s hs; rw [hemp] at hs; simp at hs
    · intro hne; exact absurd hemp hne
  · obtain ⟨hcalls, hdez, hmono, hdry⟩ := runSnaps_dry env recursive ageDays _ _ _ hmid
    have hz : mid.destroyed = 0 := by simpa using hdez
    subst hout
    refine ⟨by simpa using hcalls, by simpa using hdez, ?_, ?_⟩
    · intro s hs he
      exact List.mem_append_left _ (hdry s hs he)
    · intro _
      simp [List.getLast?_concat, hz]

/-- C8 witness. -/
theorem C8_witness :
    outW8.calls = [] ∧ outW8.destroyed = 0 ∧
    (∀ s ∈ snap_names "weekly" none envW8.listOut,
      eligibleSnap envW8 30 s = true → LogEntry.mk .info (dryMsg s) ∈ outW8.log) ∧
    (snap_names "weekly" none envW8.listOut ≠ [] →
      outW8.log.getLast? = some (LogEntry.mk .info (totalMsg 0))) :=
  C8_dry_run envW8 "weekly" 30 false none outW8 rfl

/-! ## Claim C9 — the destroyed-total log line -/

/-- C9 counterexample: when the enumerator matches nothing the run logs
only the informational "No snapshots matching" line and returns — no
"Total snapshots destroyed" line is written — contradicting the claim
that the total is logged even for zero-match runs. -/
theorem C9_counterexample :
    cleanup_snapshots envTrivial "weekly" 0 false false none =
      .ok ⟨[LogEntry.mk .info (noSnapsMsg "weekly")], [], 0⟩ ∧
    List.isPrefixOf "Total snapshots destroyed".data (noSnapsMsg "weekly").data = false :=
  ⟨rfl, rfl⟩

/-- C9 (amended): every run in which the enumerator matched at least one
snapshot and the loop completed ends its log with the total-destroyed
line, and the logged count equals the number of destroy invocations whose
return code was zero; a zero-match run short-circuits with only the
informational line (see the counterexample). -/
theorem C9_total_line (env : Env) (pattern : String) (ageDays : Int)
    (recursive dryRun : Bool) (pool : Option String) (out : CleanupOut)
    (hne : snap_names pattern pool env.listOut ≠ [])
    (h : cleanup_snapshots env pattern ageDays recursive dryRun pool = .ok out) :
    out.log.getLast? = some (LogEntry.mk .info (totalMsg out.destroyed)) ∧
    out.destroyed = (out.calls.filter (fun c => c.code == 0)).length := by
  obtain ⟨-, hcase⟩ := cleanup_inv env pattern ageDays recursive dryRun pool out h
  rcases hcase with ⟨hemp, -⟩ | ⟨-, mid, hmid, hout⟩
  · exact absurd hemp hne
  · have hcnt := runSnaps_count env dryRun recursive ageDays _ _ _ hmid (by simp)
    subst hout
    constructor
    · simp [List.getLast?_concat]
    · simpa using hcnt

/-- C9 witness. -/
theorem C9_witness :
    outW9.log.getLast? = some (LogEntry.mk .info (totalMsg outW9.destroyed)) ∧
    outW9.destroyed = (outW9.calls.filter (fun c => c.code == 0)).length :=
  C9_total_line envW8 "weekly" 30 false false none outW9 (by decide) rfl

/-! ## Claim C10 — absent pattern means age 0 -/

/-- C10: a pattern absent from the policy map looks up to 0 days when no
`--age` flag is supplied, and with a 0-day threshold every snapshot whose
parsed creation timestamp is not in the future passes the age check. -/
theorem C10_missing_policy (pattern : String) (policies : List (String × Int))
    (h : dget policies pattern = none) :
    resolve_age_days none pattern policies = 0 ∧
    (∀ (now t : Int) (s : String), parse_creation_date s = some t → t ≤ now →
      is_older_than now s (resolve_age_days none pattern policies) = some true) := by
  have h0 : resolve_age_days none pattern policies = 0 := by
    simp [resolve_age_days, get_policy_age, h]
  refine ⟨h0, fun now t s hp hle => ?_⟩
  rw [h0]
  have hnn : (0 : Int) ≤ Int.fdiv (now - t) 86400 :=
    Int.fdiv_nonneg (by omega) (by norm_num)
  simp [is_older_than, hp, ageCheck, elapsedDays, hnn]

/-- C10 witness. -/
theorem C10_witness :
    resolve_age_days none "hourly" (cfgPolicies DEFAULT_CONFIG) = 0 ∧
    is_older_than 1736823600 "Tue Jan 14 03:00 2025"
      (resolve_age_days none "hourly" (cfgPolicies DEFAULT_CONFIG)) = some true :=
  ⟨(C10_missing_policy "hourly" (cfgPolicies DEFAULT_CONFIG) rfl).1,
   (C10_missing_policy "hourly" (cfgPolicies DEFAULT_CONFIG) rfl).2
     1736823600 1736823600 "Tue Jan 14 03:00 2025" (by decide) (by decide)⟩

end ZfsKillsnaps
